import Mathlib

/-!
Shallow embedding of three `mc` admin CLI command handlers:

* `userAttachOrDetachPolicy` (src/cmd/admin-policy-attach.go), shared by the
  `admin policy attach` and `admin policy detach` commands;
* `mainAdminIDPSet` (src/cmd/admin-idp-set.go);
* the width computation and row rendering of `idpCfgList.String`
  (the IDP listing renderer, src/unnamed/part_000).

Conventions of the embedding:

* Go strings are modelled as Lean `String`; where Go `len` (a byte count)
  matters we use `goLen`, the UTF-8 byte length. For the join/split algebra
  a Go string is modelled as a `List Char`.
* Each command run is a `Run`: the ordered list of observable `Event`s
  (admin-client creation, RPC calls, printed messages, fatal diagnostics)
  together with the process `Outcome`. `fatalIf` with a non-nil error prints
  one fatal diagnostic and terminates the process with a non-zero exit code;
  this is the `Outcome.fatalExit` terminal state. `showCommandHelpAndExit ctx 1`
  is `Outcome.usageExit 1`.
* Effects outside the command logic (console color setup, the lipgloss
  styling of cells, JSON output) are elided; cell contents, the faint flag
  and all widths are modelled exactly.
* External inputs the handler branches on (flag values, whether
  `newAdminClient` and the RPC return a nil error, the `restart` result)
  are environment parameters.
-/

/-- UTF-8 byte size of one character, as Go counts string bytes. -/
def charUtf8Size (c : Char) : Nat :=
  if c.val ≤ 0x7F then 1
  else if c.val ≤ 0x7FF then 2
  else if c.val ≤ 0xFFFF then 3
  else 4

/-- Go `len(s)` on a string: its UTF-8 byte length. -/
def goLen (s : String) : Nat := s.data.foldl (fun n c => n + charUtf8Size c) 0

/-- The cli `args.Get(i)` accessor: the i-th token, or the empty string when
the index is out of range. -/
def argGet (args : List String) (i : Nat) : String := args.getD i ""

/-- Go `strings.Contains(s, "=")`: whether the token has an equals sign. -/
def goContainsEq (s : String) : Bool := s.data.contains '='

/-- The `madmin.PolicyAssociationReq` payload built by `userAttachOrDetachPolicy`:
`User`, `Group`, `Policies`. -/
structure PolicyAssociationReq where
  user : String
  group : String
  policies : List String
deriving DecidableEq

/-- Observable events of a command run, in program order. -/
inductive Event where
  /-- a call to `newAdminClient(aliasedURL)`: the admin-client session handle. -/
  | newAdminClient (aliasedURL : String)
  /-- the `client.AttachPolicy(globalContext, req)` RPC. -/
  | rpcAttachPolicy (req : PolicyAssociationReq)
  /-- the `client.DetachPolicy(globalContext, req)` RPC. -/
  | rpcDetachPolicy (req : PolicyAssociationReq)
  /-- the `client.AddOrUpdateIDPConfig(globalContext, idpType, cfgName, inputCfg, false)` RPC. -/
  | rpcAddOrUpdateIDPConfig (idpType cfgName inputCfg : String)
  /-- one `printMsg(userPolicyMessage{...})` outcome message. -/
  | printPolicyMsg (op policy userOrGroup : String) (isGroup : Bool)
  /-- the `printMsg(configSetMessage{...})` confirmation. -/
  | printConfigSet (targetAlias : String) (restart : Bool)
  /-- a fatal diagnostic emitted by `fatalIf` with a non-nil error. -/
  | fatalError (msg : String)
deriving DecidableEq

/-- How the process terminates. `usageExit c` is `showCommandHelpAndExit(ctx, c)`;
`fatalExit` is the non-zero-exit termination performed by a firing `fatalIf`. -/
inductive Outcome where
  | ok
  | usageExit (code : Nat)
  | fatalExit
deriving DecidableEq

/-- One command invocation: ordered events plus process outcome. -/
structure Run where
  events : List Event
  outcome : Outcome
deriving DecidableEq

/-- Network-touching events: session-handle creation and the three RPCs. -/
def isNetworkEvent : Event → Bool
  | .newAdminClient _ => true
  | .rpcAttachPolicy _ => true
  | .rpcDetachPolicy _ => true
  | .rpcAddOrUpdateIDPConfig _ _ _ => true
  | _ => false

/-- Policies named by the emitted `printPolicyMsg` events, in emission order. -/
def printedPolicies (r : Run) : List String :=
  r.events.filterMap fun e =>
    match e with
    | .printPolicyMsg _ p _ _ => some p
    | _ => none

/-- Number of fatal diagnostics in a run. -/
def fatalCount (r : Run) : Nat :=
  r.events.countP fun e =>
    match e with
    | .fatalError _ => true
    | _ => false

/-- Environment of a policy attach/detach invocation: the `--user` and
`--group` flag values (empty when a flag is omitted), and whether
`newAdminClient` resp. the attach/detach RPC return a non-nil error. -/
structure PolicyEnv where
  user : String
  group : String
  clientErr : Bool
  rpcErr : Bool
deriving DecidableEq

/-- Embedding of `userAttachOrDetachPolicy` (src/cmd/admin-policy-attach.go):
arity guard `len(ctx.Args()) < 2`; build the `PolicyAssociationReq` from the
flag values and `args.Tail()`; create the admin client (fatal on error);
issue the attach or detach RPC; on nil error print one `userPolicyMessage`
per requested policy, otherwise one fatal diagnostic. `cmdName` is
`ctx.Command.Name`. -/
def userAttachOrDetachPolicy (env : PolicyEnv) (cmdName : String)
    (args : List String) (attach : Bool) : Run :=
  if args.length < 2 then ⟨[], .usageExit 1⟩
  else
    let aliasedURL := argGet args 0
    let req : PolicyAssociationReq := ⟨env.user, env.group, args.tail⟩
    if env.clientErr then
      ⟨[.newAdminClient aliasedURL,
        .fatalError "Unable to initialize admin connection."], .fatalExit⟩
    else
      let rpcEv : Event := if attach then .rpcAttachPolicy req else .rpcDetachPolicy req
      let isGroup : Bool := req.user == ""
      let userOrGroup := if isGroup then req.group else req.user
      if env.rpcErr then
        ⟨[.newAdminClient aliasedURL, rpcEv,
          .fatalError (if attach then "Unable to attach the policy"
                       else "Unable to detach the policy")], .fatalExit⟩
      else
        ⟨.newAdminClient aliasedURL :: rpcEv ::
          req.policies.map (fun p => .printPolicyMsg cmdName p userOrGroup isGroup), .ok⟩

/-- Embedding of `mainAdminPolicyAttach`: the attach command handler. -/
def mainAdminPolicyAttach (env : PolicyEnv) (args : List String) : Run :=
  userAttachOrDetachPolicy env "attach" args true

/-- The `madmin.ValidIDPConfigTypes` set the `validateIDType` guard consults,
as fixed by the command help text in src/cmd/admin-idp-set.go:
`ID_TYPE must be one of 'ldap' or 'openid'`. -/
def validIDPConfigTypes : List String := ["ldap", "openid"]

/-- Environment of an `idp set` invocation: whether `newAdminClient` resp.
`AddOrUpdateIDPConfig` return a non-nil error, and the `restart` value the
RPC reports on success. -/
structure IDPSetEnv where
  clientErr : Bool
  rpcErr : Bool
  restart : Bool
deriving DecidableEq

/-- Embedding of `mainAdminIDPSet` (src/cmd/admin-idp-set.go): arity guard
`len(ctx.Args()) < 3`; create the admin client (fatal on error);
`validateIDType` fatal when the type is not in `validIDPConfigTypes`;
take `args.Get(2)` as `cfgName` when it has no `=` (body is `args[3:]`),
else leave `cfgName` empty (body is `args[2:]`); join the body tokens with
single spaces; issue the RPC and print the confirmation, or die fatally. -/
def mainAdminIDPSet (env : IDPSetEnv) (args : List String) : Run :=
  if args.length < 3 then ⟨[], .usageExit 1⟩
  else
    let aliasedURL := argGet args 0
    if env.clientErr then
      ⟨[.newAdminClient aliasedURL,
        .fatalError "Unable to initialize admin connection."], .fatalExit⟩
    else
      let idpType := argGet args 1
      if validIDPConfigTypes.contains idpType = false then
        ⟨[.newAdminClient aliasedURL, .fatalError "invalid IDP type"], .fatalExit⟩
      else
        let arg2 := argGet args 2
        let parsed : String × List String :=
          if goContainsEq arg2 = false then (arg2, args.drop 3)
          else ("", args.drop 2)
        let inputCfg := String.intercalate " " parsed.2
        if env.rpcErr then
          ⟨[.newAdminClient aliasedURL,
            .rpcAddOrUpdateIDPConfig idpType parsed.1 inputCfg,
            .fatalError "Unable to set IDP config"], .fatalExit⟩
        else
          ⟨[.newAdminClient aliasedURL,
            .rpcAddOrUpdateIDPConfig idpType parsed.1 inputCfg,
            .printConfigSet aliasedURL env.restart], .ok⟩

/-- One `madmin.IDPListItem` as consumed by `idpCfgList.String`. -/
structure IDPListItem where
  name : String
  enabled : Bool
  roleARN : String
deriving DecidableEq

/-- The display string for a name cell: the sentinel `_` is shown as
`(default)` both when measuring and when rendering. -/
def displayName (name : String) : String :=
  if name = "_" then "(default)" else name

/-- Name column width of `idpCfgList.String`: the running-maximum loop
started at `len("Name")` over the display names, plus the padding of 2. -/
def maxNameWidth (i : List IDPListItem) : Nat :=
  (i.foldl
    (fun w item =>
      if w < goLen (displayName item.name) then goLen (displayName item.name) else w)
    (goLen "Name")) + 2

/-- Role-ARN column width of `idpCfgList.String`: the running-maximum loop
started at `len("RoleArn")` over the role ARNs, plus the padding of 2. -/
def maxRoleARNWidth (i : List IDPListItem) : Nat :=
  (i.foldl
    (fun w item => if w < goLen item.roleARN then goLen item.roleARN else w)
    (goLen "RoleArn")) + 2

/-- Enabled column width of `idpCfgList.String`: the literal constant 5. -/
def enabledWidth : Nat := 5

/-- Per-row enabled indicator of `idpCfgList.String`: `enabledOn` when the
row is enabled, `enabledOff` otherwise. -/
def renderGlyph (item : IDPListItem) : String :=
  if item.enabled then "🟢" else "🔴"

/-- Per-row name cell text of `idpCfgList.String`: the sentinel `_` is
replaced by `(default)`. -/
def renderNameCell (item : IDPListItem) : String :=
  if item.name = "_" then "(default)" else item.name

/-- Whether the name cell is rendered faint (de-emphasized): exactly for the
sentinel `_`. -/
def renderNameFaint (item : IDPListItem) : Bool :=
  item.name == "_"

/-- Widest cell of a column, as the spec words it, for the measure `f`. -/
def widest (f : IDPListItem → Nat) : List IDPListItem → Nat
  | [] => 0
  | x :: t => max (f x) (widest f t)

/-- Name column width as the spec words it: maximum of the fixed header
width and the widest display-name cell, plus the padding of 2. -/
def specNameWidth (i : List IDPListItem) : Nat :=
  max (goLen "Name") (widest (fun item => goLen (displayName item.name)) i) + 2

/-- Role-ARN column width as the spec words it: maximum of the fixed header
width and the widest role-ARN cell, plus the padding of 2. -/
def specRoleARNWidth (i : List IDPListItem) : Nat :=
  max (goLen "RoleArn") (widest (fun item => goLen item.roleARN) i) + 2

/-- Enabled column width as the claim words it: maximum of the fixed header
width of `On?` and the widest indicator cell, with no padding. -/
def specEnabledWidth (i : List IDPListItem) : Nat :=
  max (goLen "On?") (widest (fun item => goLen (renderGlyph item)) i)

/-- Go `strings.Join(tokens, " ")` on strings modelled as char lists. -/
def goJoinSp : List (List Char) → List Char
  | [] => []
  | [t] => t
  | t :: ts => t ++ ' ' :: goJoinSp ts

/-- Go `strings.Split(s, " ")` on strings modelled as char lists: split at
every space, keeping empty fields; on the empty string it yields one empty
field. -/
def goSplitSp : List Char → List (List Char)
  | [] => [[]]
  | c :: cs =>
    if c = ' ' then [] :: goSplitSp cs
    else
      match goSplitSp cs with
      | t :: ts => (c :: t) :: ts
      | [] => [[c]]

/-- Helper: the emitted success messages name exactly the policies mapped over. -/
theorem filterMap_printPolicyMsg (cmdName userOrGroup : String) (isGroup : Bool)
    (l : List String) :
    List.filterMap
      ((fun e => match e with
        | Event.printPolicyMsg _ p _ _ => some p
        | _ => none) ∘
       fun p => Event.printPolicyMsg cmdName p userOrGroup isGroup) l = l := by
  induction l with
  | nil => rfl
  | cons a t ih => simp only [List.filterMap_cons, Function.comp]; rw [ih]

/-- C1 (counterexample): the invocation `attach myminio readonly --user james`
has only 1 post-alias token, fewer than 2, yet it is not rejected with a
usage error: the session is established and the RPC is issued. -/
theorem policy_arity_counterexample :
    (["myminio", "readonly"] : List String).length - 1 < 2 ∧
    (userAttachOrDetachPolicy ⟨"james", "", false, false⟩ "attach"
        ["myminio", "readonly"] true).outcome ≠ Outcome.usageExit 1 ∧
    (userAttachOrDetachPolicy ⟨"james", "", false, false⟩ "attach"
        ["myminio", "readonly"] true).events.any isNetworkEvent = true := by
  decide

/-- C1 (amended): with fewer than 2 tokens in total (that is, an alias plus
fewer than 1 further positional argument) the attach/detach command reports a
usage error and terminates with exit code 1 before any network activity: no
event at all is emitted, so no session is established and no RPC is issued. -/
theorem policy_arity_guard (env : PolicyEnv) (cmdName : String)
    (args : List String) (attach : Bool) (h : args.length < 2) :
    userAttachOrDetachPolicy env cmdName args attach = ⟨[], Outcome.usageExit 1⟩ := by
  simp [userAttachOrDetachPolicy, h]

/-- C1 (witness): the amended guard fires on the single-token invocation. -/
theorem policy_arity_guard_witness :
    (["myminio"] : List String).length < 2 ∧
    userAttachOrDetachPolicy ⟨"", "", false, false⟩ "attach" ["myminio"] true
      = ⟨[], Outcome.usageExit 1⟩ :=
  ⟨by decide,
   policy_arity_guard ⟨"", "", false, false⟩ "attach" ["myminio"] true (by decide)⟩

/-- C3 (counterexample): an invocation supplying both `--user alice` and
`--group devs` still issues the attach RPC, and the request carries both
principal fields set at once: the exclusivity is not enforced locally. -/
theorem policy_both_flags_counterexample :
    ("alice" : String) ≠ "" ∧ ("devs" : String) ≠ "" ∧
    Event.rpcAttachPolicy ⟨"alice", "devs", ["readonly"]⟩ ∈
      (userAttachOrDetachPolicy ⟨"alice", "devs", false, false⟩ "attach"
        ["myminio", "readonly"] true).events := by
  decide

/-- C3 (amended): the PolicyAssociationRequest carries the `--user` and
`--group` flag values verbatim (whichever flag is omitted stays empty) and is
always handed to the attach/detach RPC once the arity guard and client setup
pass, with no local exclusivity check on the principal fields: validity
checking is delegated to the admin-client library and the server. -/
theorem policy_req_forwards_flags (env : PolicyEnv) (cmdName : String)
    (args : List String) (attach : Bool)
    (h : 2 ≤ args.length) (hc : env.clientErr = false) :
    (if attach then Event.rpcAttachPolicy ⟨env.user, env.group, args.tail⟩
     else Event.rpcDetachPolicy ⟨env.user, env.group, args.tail⟩) ∈
      (userAttachOrDetachPolicy env cmdName args attach).events := by
  have hlt : ¬ args.length < 2 := Nat.not_lt.mpr h
  cases attach <;> cases hre : env.rpcErr <;>
    simp [userAttachOrDetachPolicy, hlt, hc, hre]

/-- C3 (witness): a detach invocation with neither flag supplied still hands
the request (both principal fields empty) to the detach RPC. -/
theorem policy_req_forwards_flags_witness :
    2 ≤ (["myminio", "readonly"] : List String).length ∧
    (PolicyEnv.mk "" "" false false).clientErr = false ∧
    (if false then Event.rpcAttachPolicy ⟨"", "", ["readonly"]⟩
     else Event.rpcDetachPolicy ⟨"", "", ["readonly"]⟩) ∈
      (userAttachOrDetachPolicy ⟨"", "", false, false⟩ "detach"
        ["myminio", "readonly"] false).events :=
  ⟨by decide, rfl,
   policy_req_forwards_flags ⟨"", "", false, false⟩ "detach"
     ["myminio", "readonly"] false (by decide) rfl⟩

/-- C6: when the RPC succeeds, the command emits exactly one outcome message
per requested policy, in command-line order with duplicates preserved: the
printed policy list is exactly `args.Tail()`, and the process exits cleanly. -/
theorem policy_success_messages (env : PolicyEnv) (cmdName : String)
    (args : List String) (attach : Bool)
    (h : 2 ≤ args.length) (hc : env.clientErr = false) (hr : env.rpcErr = false) :
    printedPolicies (userAttachOrDetachPolicy env cmdName args attach) = args.tail ∧
    (userAttachOrDetachPolicy env cmdName args attach).outcome = Outcome.ok := by
  have hlt : ¬ args.length < 2 := Nat.not_lt.mpr h
  cases attach <;>
    simp [userAttachOrDetachPolicy, printedPolicies, hlt, hc, hr,
      List.filterMap_cons, filterMap_printPolicyMsg, -List.map_tail,
      Function.comp, List.filterMap_some]

/-- C6 (witness): attaching `policy1` then `policy2` for user `bob` emits
exactly the two messages, in that order. -/
theorem policy_success_messages_witness :
    2 ≤ (["myminio", "policy1", "policy2"] : List String).length ∧
    printedPolicies (userAttachOrDetachPolicy ⟨"bob", "", false, false⟩ "attach"
        ["myminio", "policy1", "policy2"] true) = ["policy1", "policy2"] ∧
    (userAttachOrDetachPolicy ⟨"bob", "", false, false⟩ "attach"
        ["myminio", "policy1", "policy2"] true).outcome = Outcome.ok :=
  ⟨by decide,
   (policy_success_messages ⟨"bob", "", false, false⟩ "attach"
      ["myminio", "policy1", "policy2"] true (by decide) rfl rfl).1,
   (policy_success_messages ⟨"bob", "", false, false⟩ "attach"
      ["myminio", "policy1", "policy2"] true (by decide) rfl rfl).2⟩

/-- C7: when the RPC fails, zero policy-association outcome messages are
emitted, exactly one fatal diagnostic is produced, and the process
terminates with a non-zero exit code. -/
theorem policy_failure_no_messages (env : PolicyEnv) (cmdName : String)
    (args : List String) (attach : Bool)
    (h : 2 ≤ args.length) (hc : env.clientErr = false) (hr : env.rpcErr = true) :
    printedPolicies (userAttachOrDetachPolicy env cmdName args attach) = [] ∧
    fatalCount (userAttachOrDetachPolicy env cmdName args attach) = 1 ∧
    (userAttachOrDetachPolicy env cmdName args attach).outcome = Outcome.fatalExit := by
  have hlt : ¬ args.length < 2 := Nat.not_lt.mpr h
  cases attach <;>
    simp [userAttachOrDetachPolicy, printedPolicies, fatalCount, hlt, hc, hr,
      List.filterMap_cons, List.countP_cons]

/-- C7 (witness): a failing attach of 3 requested policies emits zero
outcome messages and exactly one fatal diagnostic. -/
theorem policy_failure_no_messages_witness :
    2 ≤ (["myminio", "p1", "p2", "p3"] : List String).length ∧
    printedPolicies (userAttachOrDetachPolicy ⟨"bob", "", false, true⟩ "attach"
        ["myminio", "p1", "p2", "p3"] true) = [] ∧
    fatalCount (userAttachOrDetachPolicy ⟨"bob", "", false, true⟩ "attach"
        ["myminio", "p1", "p2", "p3"] true) = 1 ∧
    (userAttachOrDetachPolicy ⟨"bob", "", false, true⟩ "attach"
        ["myminio", "p1", "p2", "p3"] true).outcome = Outcome.fatalExit :=
  ⟨by decide,
   (policy_failure_no_messages ⟨"bob", "", false, true⟩ "attach"
      ["myminio", "p1", "p2", "p3"] true (by decide) rfl rfl).1,
   (policy_failure_no_messages ⟨"bob", "", false, true⟩ "attach"
      ["myminio", "p1", "p2", "p3"] true (by decide) rfl rfl).2.1,
   (policy_failure_no_messages ⟨"bob", "", false, true⟩ "attach"
      ["myminio", "p1", "p2", "p3"] true (by decide) rfl rfl).2.2⟩

/-- C2 (counterexample): an `idp set` invocation with the unrecognized
provider kind `bogus` still establishes the admin-client session before the
kind is validated, refuting that no session is ever established for it. -/
theorem idp_set_session_counterexample :
    validIDPConfigTypes.contains "bogus" = false ∧
    Event.newAdminClient "play/" ∈
      (mainAdminIDPSet ⟨false, false, false⟩ ["play/", "bogus", "a=b"]).events := by
  decide

/-- C2 (amended): the admin-client session handle is created right after the
arity check, before provider-kind validation; an unrecognized provider kind
is still rejected before the RPC is issued (the run ends fatally with the
client-creation event and the invalid-type diagnostic as its only events, so
`AddOrUpdateIDPConfig` is never called), but the admin-client session has
already been established at that point. -/
theorem idp_set_invalid_type_before_rpc (env : IDPSetEnv) (args : List String)
    (h3 : 3 ≤ args.length) (hc : env.clientErr = false)
    (hv : validIDPConfigTypes.contains (argGet args 1) = false) :
    (mainAdminIDPSet env args).events =
      [Event.newAdminClient (argGet args 0), Event.fatalError "invalid IDP type"] ∧
    (mainAdminIDPSet env args).outcome = Outcome.fatalExit := by
  have hlt : ¬ args.length < 3 := Nat.not_lt.mpr h3
  have hv2 : ¬ argGet args 1 ∈ validIDPConfigTypes := by simpa using hv
  simp [mainAdminIDPSet, hlt, hc, hv, hv2]

/-- C2 (witness): the amended statement at the concrete `bogus` invocation. -/
theorem idp_set_invalid_type_before_rpc_witness :
    3 ≤ (["play/", "bogus", "a=b"] : List String).length ∧
    (IDPSetEnv.mk false false false).clientErr = false ∧
    validIDPConfigTypes.contains (argGet ["play/", "bogus", "a=b"] 1) = false ∧
    (mainAdminIDPSet ⟨false, false, false⟩ ["play/", "bogus", "a=b"]).events =
      [Event.newAdminClient (argGet ["play/", "bogus", "a=b"] 0),
       Event.fatalError "invalid IDP type"] ∧
    (mainAdminIDPSet ⟨false, false, false⟩ ["play/", "bogus", "a=b"]).outcome
      = Outcome.fatalExit :=
  ⟨by decide, rfl, by decide,
   (idp_set_invalid_type_before_rpc ⟨false, false, false⟩
      ["play/", "bogus", "a=b"] (by decide) rfl (by decide)).1,
   (idp_set_invalid_type_before_rpc ⟨false, false, false⟩
      ["play/", "bogus", "a=b"] (by decide) rfl (by decide)).2⟩

/-- C5: with at least 3 tokens, a valid provider kind and a working client,
the `idp set` parser takes the third token as the configuration name exactly
when it has no `=` (the body is then the remaining tokens), otherwise the
name is empty and the third token joins the body; either way the RPC receives
the body tokens joined with single spaces, verbatim. -/
theorem idp_set_cfg_name_parse (env : IDPSetEnv) (args : List String)
    (h3 : 3 ≤ args.length) (hc : env.clientErr = false)
    (hv : validIDPConfigTypes.contains (argGet args 1) = true) :
    (if goContainsEq (argGet args 2) = false then
      Event.rpcAddOrUpdateIDPConfig (argGet args 1) (argGet args 2)
        (String.intercalate " " (args.drop 3)) ∈ (mainAdminIDPSet env args).events
     else
      Event.rpcAddOrUpdateIDPConfig (argGet args 1) ""
        (String.intercalate " " (args.drop 2)) ∈ (mainAdminIDPSet env args).events) := by
  have hlt : ¬ args.length < 3 := Nat.not_lt.mpr h3
  have hv2 : argGet args 1 ∈ validIDPConfigTypes := by simpa using hv
  cases hct : goContainsEq (argGet args 2) <;> cases hre : env.rpcErr <;>
    simp [mainAdminIDPSet, hlt, hc, hv, hv2, hct, hre]

/-- C5 (witness): `idp set play/ openid client_id=foo scopes=x` has `=` in
its third token, so the configuration name stays empty and the RPC receives
the body `client_id=foo scopes=x`. -/
theorem idp_set_cfg_name_parse_witness :
    3 ≤ (["play/", "openid", "client_id=foo", "scopes=x"] : List String).length ∧
    (IDPSetEnv.mk false false false).clientErr = false ∧
    validIDPConfigTypes.contains
      (argGet ["play/", "openid", "client_id=foo", "scopes=x"] 1) = true ∧
    (if goContainsEq (argGet ["play/", "openid", "client_id=foo", "scopes=x"] 2)
        = false then
      Event.rpcAddOrUpdateIDPConfig
        (argGet ["play/", "openid", "client_id=foo", "scopes=x"] 1)
        (argGet ["play/", "openid", "client_id=foo", "scopes=x"] 2)
        (String.intercalate " "
          ((["play/", "openid", "client_id=foo", "scopes=x"] : List String).drop 3)) ∈
        (mainAdminIDPSet ⟨false, false, false⟩
          ["play/", "openid", "client_id=foo", "scopes=x"]).events
     else
      Event.rpcAddOrUpdateIDPConfig
        (argGet ["play/", "openid", "client_id=foo", "scopes=x"] 1) ""
        (String.intercalate " "
          ((["play/", "openid", "client_id=foo", "scopes=x"] : List String).drop 2)) ∈
        (mainAdminIDPSet ⟨false, false, false⟩
          ["play/", "openid", "client_id=foo", "scopes=x"]).events) :=
  ⟨by decide, rfl, by decide,
   idp_set_cfg_name_parse ⟨false, false, false⟩
     ["play/", "openid", "client_id=foo", "scopes=x"] (by decide) rfl (by decide)⟩

/-- C10: the 3-token invocation `idp set play/ openid dex_test`, whose third
token has no `=`, passes the arity check, consumes `dex_test` as the
configuration name, and issues the RPC with the empty body blob; no usage
error is raised even though no key=value body token was supplied. -/
theorem idp_set_bare_name_no_usage_error :
    mainAdminIDPSet ⟨false, false, false⟩ ["play/", "openid", "dex_test"] =
      ⟨[Event.newAdminClient "play/",
        Event.rpcAddOrUpdateIDPConfig "openid" "dex_test" "",
        Event.printConfigSet "play/" false], Outcome.ok⟩ := by
  decide

/-- Helper: splitting never yields an empty field list. -/
theorem goSplitSp_ne_nil (s : List Char) : goSplitSp s ≠ [] := by
  induction s with
  | nil => simp [goSplitSp]
  | cons c cs ih =>
    by_cases hc : c = ' '
    · simp [goSplitSp, hc]
    · simp only [goSplitSp, if_neg hc]
      cases h : goSplitSp cs with
      | nil => simp
      | cons t ts => simp

/-- Helper: splitting a token with no space is the identity field. -/
theorem goSplitSp_no_space (t : List Char) (h : ' ' ∉ t) : goSplitSp t = [t] := by
  induction t with
  | nil => rfl
  | cons c cs ih =>
    have hc : ¬ c = ' ' := by
      intro hcc
      subst hcc
      exact h (List.mem_cons_self _ _)
    have hcs : ' ' ∉ cs := fun hm => h (List.mem_cons_of_mem c hm)
    simp [goSplitSp, if_neg hc, ih hcs]

/-- Helper: splitting peels off a space-free token before a space. -/
theorem goSplitSp_append (t rest : List Char) (h : ' ' ∉ t) :
    goSplitSp (t ++ ' ' :: rest) = t :: goSplitSp rest := by
  induction t with
  | nil => simp [goSplitSp]
  | cons c cs ih =>
    have hc : ¬ c = ' ' := by
      intro hcc
      subst hcc
      exact h (List.mem_cons_self _ _)
    have hcs : ' ' ∉ cs := fun hm => h (List.mem_cons_of_mem c hm)
    simp [List.cons_append, goSplitSp, if_neg hc, List.append_eq, ih hcs]

/-- C8 (counterexample): the empty token sequence vacuously has no token
with a space in it, yet re-splitting its joined blob does not give back the
empty sequence: Go `strings.Split` turns the empty blob into one empty field. -/
theorem goSplitSp_goJoinSp_empty_counterexample :
    (∀ t ∈ ([] : List (List Char)), ' ' ∉ t) ∧
    goSplitSp (goJoinSp []) ≠ [] := by
  constructor
  · intro t ht
    cases ht
  · decide

/-- C8 (amended): for every nonempty token sequence in which no token
contains a space character, re-splitting the single-space-joined blob on
single spaces yields the original token sequence. -/
theorem goSplitSp_goJoinSp_round_trip (l : List (List Char)) (hne : l ≠ [])
    (hs : ∀ t ∈ l, ' ' ∉ t) : goSplitSp (goJoinSp l) = l := by
  induction l with
  | nil => exact absurd rfl hne
  | cons t ts ih =>
    cases ts with
    | nil =>
      exact goSplitSp_no_space t (hs t (List.mem_cons_self t []))
    | cons t2 ts2 =>
      have ht : ' ' ∉ t := hs t (List.mem_cons_self t (t2 :: ts2))
      have hs2 : ∀ u ∈ t2 :: ts2, ' ' ∉ u := fun u hu => hs u (List.mem_cons_of_mem t hu)
      have hj : goJoinSp (t :: t2 :: ts2) = t ++ ' ' :: goJoinSp (t2 :: ts2) := rfl
      rw [hj, goSplitSp_append t _ ht, ih (by simp) hs2]

/-- C8 (witness): the round trip on the concrete tokens `a` and `bc`. -/
theorem goSplitSp_goJoinSp_round_trip_witness :
    ([['a'], ['b', 'c']] : List (List Char)) ≠ [] ∧
    (∀ t ∈ ([['a'], ['b', 'c']] : List (List Char)), ' ' ∉ t) ∧
    goSplitSp (goJoinSp [['a'], ['b', 'c']]) = [['a'], ['b', 'c']] :=
  ⟨by decide, by decide,
   goSplitSp_goJoinSp_round_trip [['a'], ['b', 'c']] (by decide) (by decide)⟩

/-- Helper: the running-maximum loop of the width computation equals the
maximum of its seed and the widest cell. -/
theorem foldl_if_max (f : IDPListItem → Nat) (l : List IDPListItem) :
    ∀ a : Nat,
      l.foldl (fun w item => if w < f item then f item else w) a = max a (widest f l) := by
  induction l with
  | nil => intro a; simp [widest]
  | cons x t ih =>
    intro a
    have hmax : (if a < f x then f x else a) = max a (f x) := by
      rcases Nat.lt_or_ge a (f x) with hx | hx
      · rw [if_pos hx]; omega
      · rw [if_neg (Nat.not_lt.mpr hx)]; omega
    simp only [List.foldl_cons, hmax, ih, widest, Nat.max_assoc]

/-- C4 (counterexample): for the empty row set, the enabled column width of
the renderer is the fixed constant 5 and not the maximum of the fixed header
width (`On?`, 3 bytes) and the widest indicator cell (none), which is 3. -/
theorem idp_list_enabled_width_counterexample :
    enabledWidth ≠ specEnabledWidth [] := by
  decide

/-- C4 (amended): the name and role-ARN column widths each equal the maximum
of the fixed header width and the widest cell in that column across all rows
(name cells measured after substituting `(default)` for the sentinel `_`),
plus the fixed padding of 2; the enabled column width is the fixed constant
5, independent of the header and the rows. -/
theorem idp_list_column_widths (i : List IDPListItem) :
    maxNameWidth i = specNameWidth i ∧
    maxRoleARNWidth i = specRoleARNWidth i ∧
    enabledWidth = 5 := by
  refine ⟨?_, ?_, rfl⟩
  · simp [maxNameWidth, specNameWidth, foldl_if_max]
  · simp [maxRoleARNWidth, specRoleARNWidth, foldl_if_max]

/-- C9: a row whose name is the sentinel `_` renders its name cell as the
de-emphasized substituted string `(default)`; a row with any other name
renders its own name, not de-emphasized; and two rows differing in the
enabled flag render different indicator glyphs. -/
theorem idp_list_row_rendering (a b : IDPListItem)
    (ha : a.name = "_") (hb : b.name ≠ "_") (hab : a.enabled ≠ b.enabled) :
    renderNameCell a = "(default)" ∧ renderNameFaint a = true ∧
    renderNameCell b = b.name ∧ renderNameFaint b = false ∧
    renderGlyph a ≠ renderGlyph b := by
  refine ⟨by simp [renderNameCell, ha], by simp [renderNameFaint, ha],
          by simp [renderNameCell, hb], by simp [renderNameFaint, hb], ?_⟩
  cases hea : a.enabled <;> cases heb : b.enabled <;>
    simp_all [renderGlyph]

/-- C9 (witness): the spec example rows: the default enabled row and the
named disabled row. -/
theorem idp_list_row_rendering_witness :
    (IDPListItem.mk "_" true "arn:x").name = "_" ∧
    (IDPListItem.mk "svc" false "").name ≠ "_" ∧
    (IDPListItem.mk "_" true "arn:x").enabled ≠ (IDPListItem.mk "svc" false "").enabled ∧
    renderNameCell (IDPListItem.mk "_" true "arn:x") = "(default)" ∧
    renderNameFaint (IDPListItem.mk "_" true "arn:x") = true ∧
    renderNameCell (IDPListItem.mk "svc" false "") = (IDPListItem.mk "svc" false "").name ∧
    renderNameFaint (IDPListItem.mk "svc" false "") = false ∧
    renderGlyph (IDPListItem.mk "_" true "arn:x") ≠ renderGlyph (IDPListItem.mk "svc" false "") := by
  have h := idp_list_row_rendering (IDPListItem.mk "_" true "arn:x")
    (IDPListItem.mk "svc" false "") rfl (by decide) (by decide)
  exact ⟨rfl, by decide, by decide, h.1, h.2.1, h.2.2.1, h.2.2.2.1, h.2.2.2.2⟩
